import Mathlib

/-
Verification of the BME-Putaway bin-transfer system.

Quantities are modelled as exact rationals (the TypeScript sources use JS
numbers; every comparison in the sources is against the fixed tolerance
0.001, which is exact over ℚ).  Frontend logic is translated from
frontend/src/app/components (the putaway component and the
transaction-selection modal); the persistent-store transition is translated
from the SQL trace documented in the repository's transaction-flow analysis
(LotMaster update, SeqNum allocation, the two LotTransaction inserts).
Parts of the backend engine that are not present in the repository sources
are modelled from the specification and marked as such.
-/

namespace Putaway

/-- The comparison tolerance used throughout the frontend sources: 0.001. -/
def tol : ℚ := 1 / 1000

/-- Translation of PutawayComponent.roundToDecimalPlaces:
Math.round((value + Number.EPSILON) * factor) / factor.  JS Math.round
rounds half toward positive infinity, i.e. floor(x + 1/2).  The
Number.EPSILON term is a binary floating-point correction with no analogue
over exact rationals and is omitted. -/
def roundToDecimalPlaces (value : ℚ) (decimalPlaces : ℕ) : ℚ :=
  (Int.floor (value * (10 : ℚ) ^ decimalPlaces + 1/2) : ℚ) / (10 : ℚ) ^ decimalPlaces

/-- PutawayComponent.maxQuantity: the selected lot's available quantity
rounded to three decimal places. -/
def maxQuantity (qtyAvail : ℚ) : ℚ := roundToDecimalPlaces qtyAvail 3

/-- Validity of the putawayQty form control: Validators.required together
with Validators.min(0.001), i.e. the parsed value is at least 0.001. -/
def putawayQtyValid (q : ℚ) : Bool := decide (1/1000 ≤ q)

/-- Translation of PutawayComponent.isFormValid: a lot is selected, the
putawayQty control passes its validators, the parsed value is positive and
does not exceed maxQuantity.  There is no tolerance in this comparison. -/
def isFormValid (hasLot : Bool) (putawayQtyValue qtyAvail : ℚ) : Bool :=
  hasLot && putawayQtyValid putawayQtyValue &&
    decide (0 < putawayQtyValue) && decide (putawayQtyValue ≤ maxQuantity qtyAvail)

/-- PutawayComponent.onSubmit begins with
if (!this.isFormValid() || !this.selectedLot()) return; — the free-path
transfer request is sent to the backend only when this guard passes. -/
def onSubmitGuard (hasLot : Bool) (putawayQtyValue qtyAvail : ℚ) : Bool :=
  isFormValid hasLot putawayQtyValue qtyAvail && hasLot

/-- The three outcomes of pressing "Transfer with Committed"
(PutawayComponent.openTransactionModal). -/
inductive CommittedOutcome where
  | insufficientCommitted (requested available : ℚ)
  | autoExecute (qty : ℚ)
  | openSelectionModal (target : ℚ)
  deriving DecidableEq, Repr

/-- Translation of PutawayComponent.openTransactionModal (the committed-path
dispatch).  The checks run in source order: first
putawayQty > qtyCommitSales (error), then
Math.abs(putawayQty - qtyCommitSales) < 0.001 (auto-execute), otherwise the
selection modal opens with putawayQty as target. -/
def openTransactionModal (putawayQty qtyCommitSales : ℚ) : CommittedOutcome :=
  if qtyCommitSales < putawayQty then
    CommittedOutcome.insufficientCommitted putawayQty qtyCommitSales
  else if |putawayQty - qtyCommitSales| < tol then
    CommittedOutcome.autoExecute putawayQty
  else
    CommittedOutcome.openSelectionModal putawayQty

/-- A pending-transaction row as listed in the transaction-selection modal
(LotTransactionItem of the putaway service). -/
structure LotTransactionItem where
  lot_tran_no : ℕ
  lot_no : String
  bin_no : String
  doc_no : Option String
  issue_doc_line_no : Option ℕ
  qty : ℚ
  tran_typ : String
  deriving DecidableEq, Repr

/-- TransactionSelectionModalComponent.selectedTotalQty: the sum of qty over
the loaded transactions whose lot_tran_no is in the selected id set. -/
def selectedTotalQty (txs : List LotTransactionItem) (selectedIds : Finset ℕ) : ℚ :=
  ((txs.filter (fun t => decide (t.lot_tran_no ∈ selectedIds))).map (fun t => t.qty)).sum

/-- TransactionSelectionModalComponent.isQtyMatched: when the target is zero
or negative any non-empty selection matches (the fallback branch); otherwise
the selected total must be within 0.001 of the target (strictly below). -/
def isQtyMatched (txs : List LotTransactionItem) (selectedIds : Finset ℕ) (targetQty : ℚ) : Bool :=
  if targetQty ≤ 0 then decide (0 < selectedIds.card)
  else decide (|selectedTotalQty txs selectedIds - targetQty| < tol)

/-- TransactionSelectionModalComponent.canConfirm: a non-empty selection
whose quantity matches. -/
def canConfirm (txs : List LotTransactionItem) (selectedIds : Finset ℕ) (targetQty : ℚ) : Bool :=
  decide (0 < selectedIds.card) && isQtyMatched txs selectedIds targetQty

/-- PutawayComponent.onTransactionsSelected re-checks the emitted total and
proceeds to executeCommittedTransfer unless
Math.abs(selectedTotalQty - transferQty) > 0.001 (in which case it raises a
quantity-mismatch error and stops). -/
def onTransactionsSelectedProceeds (selectedTotal transferQty : ℚ) : Bool :=
  !(decide (tol < |selectedTotal - transferQty|))

/-- The combined acceptance of a user-supplied subset on the committed path:
the modal's Confirm button must be enabled and the component's re-check must
pass. -/
def committedSubsetAccepted (txs : List LotTransactionItem) (selectedIds : Finset ℕ)
    (transferQty : ℚ) : Bool :=
  canConfirm txs selectedIds transferQty &&
    onTransactionsSelectedProceeds (selectedTotalQty txs selectedIds) transferQty

/-- The transaction types the read side treats as pending outbound
(commitment calculation of the transaction-flow analysis). -/
def outboundTypes : List ℕ := [2, 3, 5, 7, 9, 10, 12, 16, 17, 20, 21]

/-- A LotTransaction (resp. QCLotTransaction) audit row.  Columns a given
insert leaves unset are None (SQL NULL); qtyIssued and qtyReceived are
optional because each insert populates only one of them. -/
structure AuditRow where
  lotNo : String
  itemKey : String
  locationKey : String
  dateReceived : String
  dateExpiry : String
  transactionType : ℕ
  vendorKey : Option String
  vendorLotNo : String
  issueDocNo : Option String
  issueDocLineNo : Option ℕ
  issueDate : Option String
  qtyIssued : Option ℚ
  receiptDocNo : Option String
  receiptDocLineNo : Option ℕ
  qtyReceived : Option ℚ
  customerKey : Option String
  recUserId : String
  recDate : String
  processed : Char
  binNo : String
  dateQuarantine : Option String
  deriving DecidableEq, Repr

/-- The WHERE clause of the commitment-calculation query:
Processed IN ('N','P'), TransactionType in the outbound list, and the
(item, location, lot, bin) key matches. -/
def pendingOutbound (itemKey locationKey lotNo binNo : String) (r : AuditRow) : Bool :=
  decide ((r.processed = 'N' ∨ r.processed = 'P') ∧ r.transactionType ∈ outboundTypes ∧
    r.itemKey = itemKey ∧ r.locationKey = locationKey ∧ r.lotNo = lotNo ∧ r.binNo = binNo)

/-- The commitment-calculation query of the transaction-flow analysis:
SELECT SUM(QtyIssued) over the UNION ALL of the filtered LotTransaction and
QCLotTransaction rows (SQL SUM skips NULLs, hence getD 0). -/
def commitmentQuery (lotTransaction qcLotTransaction : List AuditRow)
    (itemKey locationKey lotNo binNo : String) : ℚ :=
  (((lotTransaction.filter (pendingOutbound itemKey locationKey lotNo binNo)) ++
    (qcLotTransaction.filter (pendingOutbound itemKey locationKey lotNo binNo))).map
      (fun r => r.qtyIssued.getD 0)).sum

/-- One LotMaster row, keyed by (item, location, lot, bin). -/
structure LotMasterRow where
  lotNo : String
  itemKey : String
  locationKey : String
  binNo : String
  vendorKey : String
  vendorLotNo : String
  dateReceived : String
  dateExpiry : String
  lotStatus : String
  qtyOnHand : ℚ
  qtyCommitSales : ℚ
  qtyReserved : ℚ
  deriving DecidableEq, Repr

/-- The availability calculator's output. -/
structure AvailabilityView where
  on_hand : ℚ
  committed_sales : ℚ
  available : ℚ
  pending_commit : ℚ
  deriving DecidableEq, Repr

/-- The availability calculation: Available Qty = QtyOnHand - Qtycommitsales
(summary of the transaction-flow analysis), with pending_commit from the
commitment-calculation query. -/
def searchAvailability (lot : LotMasterRow) (lotTransaction qcLotTransaction : List AuditRow) :
    AvailabilityView :=
  { on_hand := lot.qtyOnHand
    committed_sales := lot.qtyCommitSales
    available := lot.qtyOnHand - lot.qtyCommitSales
    pending_commit := commitmentQuery lotTransaction qcLotTransaction
      lot.itemKey lot.locationKey lot.lotNo lot.binNo }

/-- The specification's wording of pending_commit: the sum of issued
quantities over audit and QC-audit rows (here: their combined list) with
processed in N or P and transaction type in the outbound set, for the same
key.  Kept separate from commitmentQuery so the two can be compared. -/
def pending_commit_spec (rows : List AuditRow) (itemKey locationKey lotNo binNo : String) : ℚ :=
  (rows.map (fun r =>
    if (r.processed = 'N' ∨ r.processed = 'P') ∧ r.transactionType ∈ outboundTypes ∧
        r.itemKey = itemKey ∧ r.locationKey = locationKey ∧ r.lotNo = lotNo ∧ r.binNo = binNo
    then r.qtyIssued.getD 0 else 0)).sum

/-- Whether a LotMaster row has the given (item, location, lot, bin) key. -/
def lotKeyMatch (itemKey locationKey lotNo binNo : String) (r : LotMasterRow) : Bool :=
  decide (r.itemKey = itemKey ∧ r.locationKey = locationKey ∧ r.lotNo = lotNo ∧ r.binNo = binNo)

/-- UPDATE LotMaster SET Qtycommitsales = Qtycommitsales + delta WHERE the
key matches (Step 4.3 of the transaction-flow analysis; the committed path
runs it with a negative delta). -/
def updateCommitSales (rows : List LotMasterRow) (itemKey locationKey lotNo binNo : String)
    (delta : ℚ) : List LotMasterRow :=
  rows.map (fun r =>
    if lotKeyMatch itemKey locationKey lotNo binNo r then
      { r with qtyCommitSales := r.qtyCommitSales + delta }
    else r)

/-- First LotMaster row with the given key. -/
def findLot (rows : List LotMasterRow) (itemKey locationKey lotNo binNo : String) :
    Option LotMasterRow :=
  rows.find? (lotKeyMatch itemKey locationKey lotNo binNo)

/-- Document-number allocation (Phase 3 of the transaction-flow analysis):
the SeqNum row for series BT is read and incremented under its row lock, and
the document number is BT-<n> for the post-increment value n. -/
def nextDocNumber (seqNum : ℕ) : ℕ × String :=
  (seqNum + 1, "BT-" ++ toString (seqNum + 1))

/-- The source audit insert (Step 5.1): TransactionType 9, IssueDocNo and
IssueDocLineNo 1, QtyIssued, Processed N, at the source bin; dates and
vendor lot echoed from the source LotMaster row. -/
def mkSourceAuditRow (src : LotMasterRow) (docNo : String) (qty : ℚ)
    (userId recDate issueDate : String) : AuditRow :=
  { lotNo := src.lotNo
    itemKey := src.itemKey
    locationKey := src.locationKey
    dateReceived := src.dateReceived
    dateExpiry := src.dateExpiry
    transactionType := 9
    vendorKey := none
    vendorLotNo := src.vendorLotNo
    issueDocNo := some docNo
    issueDocLineNo := some 1
    issueDate := some issueDate
    qtyIssued := some qty
    receiptDocNo := none
    receiptDocLineNo := none
    qtyReceived := none
    customerKey := none
    recUserId := userId
    recDate := recDate
    processed := 'N'
    binNo := src.binNo
    dateQuarantine := none }

/-- The destination audit insert (Step 5.2): TransactionType 8, ReceiptDocNo
and ReceiptDocLineNo 1, QtyReceived, vendor echoed from the source row,
CustomerKey the empty string, DateQuarantine NULL, Processed N, at the
destination bin. -/
def mkDestAuditRow (src : LotMasterRow) (destBin docNo : String) (qty : ℚ)
    (userId recDate : String) : AuditRow :=
  { lotNo := src.lotNo
    itemKey := src.itemKey
    locationKey := src.locationKey
    dateReceived := src.dateReceived
    dateExpiry := src.dateExpiry
    transactionType := 8
    vendorKey := some src.vendorKey
    vendorLotNo := src.vendorLotNo
    issueDocNo := none
    issueDocLineNo := none
    issueDate := none
    qtyIssued := none
    receiptDocNo := some docNo
    receiptDocLineNo := some 1
    qtyReceived := some qty
    customerKey := some ""
    recUserId := userId
    recDate := recDate
    processed := 'N'
    binNo := destBin
    dateQuarantine := none }

/-- The persistent state the transfer transaction touches. -/
structure DBState where
  lotMaster : List LotMasterRow
  lotTransaction : List AuditRow
  seqNumBT : ℕ
  deriving Repr

/-- The free-quantity transfer commit (Phases 3 to 5 of the transaction-flow
analysis, one atomic transaction): allocate the BT document number, add qty
to the source row's Qtycommitsales, append the paired audit rows.  On-hand
is not touched.  Returns the new state and the document number. -/
def executeTransfer (s : DBState) (src : LotMasterRow) (destBin userId recDate issueDate : String)
    (qty : ℚ) : DBState × String :=
  let n := (nextDocNumber s.seqNumBT).1
  let doc := (nextDocNumber s.seqNumBT).2
  ({ lotMaster := updateCommitSales s.lotMaster src.itemKey src.locationKey src.lotNo src.binNo qty
     lotTransaction := s.lotTransaction ++
       [mkSourceAuditRow src doc qty userId recDate issueDate,
        mkDestAuditRow src destBin doc qty userId recDate]
     seqNumBT := n }, doc)

/-- Modelled from the spec: the committed-path engine (the backend
transferCommitted handler) is not among the repository sources; the
specification prescribes the same single transaction with
committed_sales - qty on the source row and the paired audit rows written
exactly as on the free path, attributing the whole qty. -/
def executeCommittedPath (s : DBState) (src : LotMasterRow)
    (destBin userId recDate issueDate : String) (qty : ℚ) : DBState × String :=
  let n := (nextDocNumber s.seqNumBT).1
  let doc := (nextDocNumber s.seqNumBT).2
  ({ lotMaster := updateCommitSales s.lotMaster src.itemKey src.locationKey src.lotNo src.binNo (-qty)
     lotTransaction := s.lotTransaction ++
       [mkSourceAuditRow src doc qty userId recDate issueDate,
        mkDestAuditRow src destBin doc qty userId recDate]
     seqNumBT := n }, doc)

/-- The values issued by k successive BT allocations starting from a counter
value (allocations are serialized by the SeqNum row lock). -/
def allocRun (seqNum : ℕ) : ℕ → List ℕ
  | 0 => []
  | Nat.succ k => (nextDocNumber seqNum).1 :: allocRun (nextDocNumber seqNum).1 k

/-- The paired audit rows a committed transfer must leave behind: the audit
table is extended by exactly the type-9 source leg and the type-8
destination leg, both with the given document number, quantity and
processed N, and nothing else changes in the table. -/
def pairedAuditRows (pre post : List AuditRow) (doc srcBin destBin : String) (qty : ℚ) : Prop :=
  ∃ r9 r8 : AuditRow,
    post = pre ++ [r9, r8] ∧
    r9.transactionType = 9 ∧ r9.binNo = srcBin ∧ r9.issueDocNo = some doc ∧
      r9.qtyIssued = some qty ∧ r9.processed = 'N' ∧
    r8.transactionType = 8 ∧ r8.binNo = destBin ∧ r8.receiptDocNo = some doc ∧
      r8.qtyReceived = some qty ∧ r8.processed = 'N'

/-- The backend transfer result envelope. -/
structure TransferResult where
  success : Bool
  document_no : String
  message : String
  timestamp : String
  source_lot_status : String
  destination_lot_status : String
  deriving DecidableEq, Repr

/-- Modelled from the spec: the backend free-path transfer handler is not
among the repository sources; per the specification's success output,
destination_lot_status equals source_lot_status unless a destination lot row
already exists (then it is that row's status). -/
def backendTransferResult (doc msg ts sourceStatus : String) (destRow : Option LotMasterRow) :
    TransferResult :=
  { success := true
    document_no := doc
    message := msg
    timestamp := ts
    source_lot_status := sourceStatus
    destination_lot_status :=
      match destRow with
      | some r => r.lotStatus
      | none => sourceStatus }

/-- The lot details held by the putaway component for the selected lot. -/
structure LotDetails where
  lotNumber : String
  binNumber : String
  itemKey : String
  location : String
  uom : String
  qtyCommitSales : ℚ
  qtyOnHand : ℚ
  qtyAvail : ℚ
  expDate : String
  lotStatus : String
  deriving DecidableEq, Repr

/-- The transactionDetails record the component assembles for display and
printing. -/
structure TransactionDetails where
  document_no : String
  lot_no : String
  transfer_qty : ℚ
  uom : String
  bin_from : String
  bin_to : String
  timestamp : String
  should_print : Bool
  source_lot_status : String
  destination_lot_status : String
  deriving DecidableEq, Repr

/-- PutawayComponent.onSubmit (free path): the statuses are taken from the
backend result. -/
def onSubmitTransactionDetails (lot : LotDetails) (toBin : String) (transferQty : ℚ)
    (result : TransferResult) (nowIso : String) (printReport : Bool) : TransactionDetails :=
  { document_no := result.document_no
    lot_no := lot.lotNumber
    transfer_qty := transferQty
    uom := lot.uom
    bin_from := lot.binNumber
    bin_to := toBin
    timestamp := nowIso
    should_print := printReport
    source_lot_status := result.source_lot_status
    destination_lot_status := result.destination_lot_status }

/-- PutawayComponent.executeCommittedTransfer (committed path): both
statuses are set to the selected lot's status — the source notes
"Same for committed transfer" — whatever the destination row holds. -/
def committedTransactionDetails (lot : LotDetails) (toBin : String) (transferQty : ℚ)
    (result : TransferResult) (printReport : Bool) : TransactionDetails :=
  { document_no := result.document_no
    lot_no := lot.lotNumber
    transfer_qty := transferQty
    uom := lot.uom
    bin_from := lot.binNumber
    bin_to := toBin
    timestamp := result.timestamp
    should_print := printReport
    source_lot_status := lot.lotStatus
    destination_lot_status := lot.lotStatus }

/-- The decimal digit character of n mod 10. -/
def digitChar (n : ℕ) : Char := Char.ofNat (48 + n % 10)

/-- Decimal rendering of a natural below 1000 padded with leading zeros to
width 3 (the fraction part produced by toFixed(3)). -/
def zeroPad3 (n : ℕ) : String := String.mk [digitChar (n / 100), digitChar (n / 10), digitChar n]

/-- Decimal rendering of a natural below 100 padded with leading zeros to
width 2 (String(x).padStart(2, '0') in the receipt's date formatting). -/
def pad2 (n : ℕ) : String := String.mk [digitChar (n / 10), digitChar n]

/-- JS Number.prototype.toFixed(3) over exact rationals: round to the
nearest thousandth picking the larger candidate on ties, then render with
exactly three fraction digits.  Faithful for the nonnegative quantities that
reach the receipt. -/
def toFixed3 (q : ℚ) : String :=
  let n : ℤ := Int.floor (q * 1000 + 1/2)
  toString (n / 1000) ++ "." ++ zeroPad3 (n % 1000).toNat

/-- Translation of PutawayComponent.formatLotStatus: when the destination
status is missing, empty, or equal to the source status the single status is
shown (with the N/A fallback of sourceStatus || 'N/A' for an empty source
status); otherwise source and destination joined by " - ". -/
def formatLotStatus (sourceStatus : String) (destStatus : Option String) : String :=
  if destStatus = none ∨ destStatus = some "" ∨ destStatus = some sourceStatus then
    (if sourceStatus = "" then "N/A" else sourceStatus)
  else
    sourceStatus ++ " - " ++ destStatus.getD ""

/-- The receipt's date: day and month padded to two digits and the last two
digits of the (four-digit) year, joined by dashes (DD-MM-YY); month is
already 1-based here (the source adds 1 to getMonth()). -/
def formatDateDDMMYY (day month year : ℕ) : String :=
  pad2 day ++ "-" ++ pad2 month ++ "-" ++ pad2 (year % 100)

/-- The receipt record assembled by PutawayComponent.printTransferReceipt:
the values the report lines are built from (document number, keys, bins,
quantities rendered by toFixed(3), the lot-status display, the DD-MM-YY
date, remark and reference).  The fixed-width line assembly around these
values is presentation only and is not modelled. -/
structure TransferReceipt where
  documentNo : String
  itemKey : String
  location : String
  lotNo : String
  binFrom : String
  binTo : String
  qtyOnHandStr : String
  qtyTransferStr : String
  lotStatusDisplay : String
  dateStr : String
  remark : String
  reference : String
  deriving DecidableEq, Repr

/-- Translation of PutawayComponent.printTransferReceipt (field
computation). -/
def printTransferReceipt (td : TransactionDetails) (lot : LotDetails)
    (remarks referenced : String) (day month year : ℕ) : TransferReceipt :=
  { documentNo := td.document_no
    itemKey := lot.itemKey
    location := lot.location
    lotNo := td.lot_no
    binFrom := td.bin_from
    binTo := td.bin_to
    qtyOnHandStr := toFixed3 lot.qtyOnHand
    qtyTransferStr := toFixed3 td.transfer_qty
    lotStatusDisplay := formatLotStatus lot.lotStatus (some td.destination_lot_status)
    dateStr := formatDateDDMMYY day month year
    remark := remarks
    reference := referenced }

/-- A single pending row of quantity 0.001, used to exercise the tolerance
boundary of the selection flow. -/
def boundaryRow : LotTransactionItem :=
  { lot_tran_no := 1
    lot_no := "2600107-1"
    bin_no := "K0802-4B"
    doc_no := none
    issue_doc_line_no := none
    qty := 1/1000
    tran_typ := "Sales Issue" }

/-- C1, counterexample.  The claim asserts that a requested qty exceeding
committed_sales by less than 0.001 counts as equal and auto-executes; with
committed_sales 50 and qty 50.0005 the dispatch instead fails
InsufficientCommitted, because the source checks qty > committed_sales
before the tolerance comparison. -/
theorem C1_counterexample :
    (50 : ℚ) < 100001/2000 ∧ |(100001/2000 : ℚ) - 50| < tol ∧
    openTransactionModal (100001/2000) 50 =
      CommittedOutcome.insufficientCommitted (100001/2000) 50 ∧
    openTransactionModal (100001/2000) 50 ≠ CommittedOutcome.autoExecute (100001/2000) := by
  have h : (50 : ℚ) < 100001/2000 := by norm_num
  have habs : |(100001/2000 : ℚ) - 50| < tol := by
    have h2 : (100001/2000 : ℚ) - 50 = 1/2000 := by norm_num
    rw [h2, tol, abs_of_nonneg (by norm_num : (0:ℚ) ≤ 1/2000)]
    norm_num
  refine ⟨h, habs, ?_, ?_⟩
  · simp [openTransactionModal, h]
  · simp [openTransactionModal, h]

/-- C1 (amended): the committed-path dispatch compares qty against
committed_sales in source order — any qty strictly above committed_sales
fails InsufficientCommitted (the tolerance does not apply upward); a qty at
most committed_sales and within 0.001 of it auto-executes; a qty at most
committed_sales minus 0.001 opens the pending-row selection. -/
theorem C1_committed_dispatch (qty commit : ℚ) :
    (commit < qty →
      openTransactionModal qty commit = CommittedOutcome.insufficientCommitted qty commit) ∧
    (qty ≤ commit → commit - qty < tol →
      openTransactionModal qty commit = CommittedOutcome.autoExecute qty) ∧
    (qty ≤ commit → tol ≤ commit - qty →
      openTransactionModal qty commit = CommittedOutcome.openSelectionModal qty) := by
  refine ⟨fun h => ?_, fun h1 h2 => ?_, fun h1 h2 => ?_⟩
  · simp [openTransactionModal, h]
  · have hn : ¬ commit < qty := not_lt.mpr h1
    have habs : |qty - commit| = commit - qty := by
      rw [abs_sub_comm]
      exact abs_of_nonneg (by linarith)
    simp [openTransactionModal, hn, habs, h2]
  · have hn : ¬ commit < qty := not_lt.mpr h1
    have habs : |qty - commit| = commit - qty := by
      rw [abs_sub_comm]
      exact abs_of_nonneg (by linarith)
    simp [openTransactionModal, hn, habs, not_lt.mpr h2]

/-- C1 witness: the three amended cases at concrete inputs — qty 50.0005
against committed 50 fails, qty 50 against 50 auto-executes, qty 30 against
50 opens the selection modal. -/
theorem C1_witness :
    openTransactionModal (100001/2000) 50 =
      CommittedOutcome.insufficientCommitted (100001/2000) 50 ∧
    openTransactionModal 50 50 = CommittedOutcome.autoExecute 50 ∧
    openTransactionModal 30 50 = CommittedOutcome.openSelectionModal 30 :=
  ⟨(C1_committed_dispatch (100001/2000) 50).1 (by norm_num),
   (C1_committed_dispatch 50 50).2.1 le_rfl (by rw [tol]; norm_num),
   (C1_committed_dispatch 30 50).2.2 (by norm_num) (by rw [tol]; norm_num)⟩

/-- C2, counterexample.  The claim asserts qty = available + 0.0001
succeeds (differences below 0.001 treated as equal); with available 925 and
qty 925.0001 the form gate is false, so onSubmit returns before any
transfer request is sent — the client applies no upward tolerance. -/
theorem C2_counterexample :
    (0 : ℚ) < 9250001/10000 - 925 ∧ (9250001/10000 : ℚ) - 925 < tol ∧
    onSubmitGuard true (9250001/10000) 925 = false := by
  refine ⟨by norm_num, by rw [tol]; norm_num, ?_⟩
  simp only [onSubmitGuard, isFormValid, putawayQtyValid, maxQuantity, roundToDecimalPlaces]
  norm_num

/-- C2 (amended): the free-path gate that decides whether a transfer
request is sent accepts exactly the quantities between 0.001 and the
available quantity rounded to three decimals; qty = available succeeds,
qty = 0 is rejected, and any qty above the rounded available quantity —
including available + 0.0001 — is rejected, with no tolerance band. -/
theorem C2_free_path_form_gate (qty avail : ℚ) :
    onSubmitGuard true qty avail = true ↔
      (tol ≤ qty ∧ qty ≤ roundToDecimalPlaces avail 3) := by
  simp only [onSubmitGuard, isFormValid, putawayQtyValid, maxQuantity, tol,
    Bool.and_eq_true, decide_eq_true_eq, and_true, true_and]
  constructor
  · rintro ⟨⟨h1, -⟩, h3⟩
    exact ⟨h1, h3⟩
  · rintro ⟨h1, h3⟩
    exact ⟨⟨h1, by linarith⟩, h3⟩

/-- C3, counterexample.  The claim asserts the subset is accepted only if
its quantities sum to qty within 0.001.  With qty 0 (below committed_sales
50, so the selection path applies) and a single selected row of 0.001, the
modal waives the quantity match (target ≤ 0 fallback) and the component
re-check passes because 0.001 is not strictly greater than the tolerance,
so the transfer proceeds although the sum does not match qty. -/
theorem C3_counterexample :
    openTransactionModal 0 50 = CommittedOutcome.openSelectionModal 0 ∧
    committedSubsetAccepted [boundaryRow] {1} 0 = true ∧
    selectedTotalQty [boundaryRow] {1} = 1/1000 ∧
    ¬ (|selectedTotalQty [boundaryRow] {1} - 0| < tol) := by
  have hm : ¬ (50 : ℚ) < 0 := by norm_num
  have habs : |(0:ℚ) - 50| = 50 := by
    rw [abs_sub_comm, abs_of_nonneg (by norm_num : (0:ℚ) ≤ 50 - 0)]
    norm_num
  have htot : selectedTotalQty [boundaryRow] {1} = 1/1000 := by
    simp [selectedTotalQty, boundaryRow]
  refine ⟨?_, ?_, htot, ?_⟩
  · simp [openTransactionModal, hm, habs, tol]
    norm_num
  · simp only [committedSubsetAccepted, canConfirm, isQtyMatched,
      onTransactionsSelectedProceeds, htot]
    norm_num [tol]
    rw [abs_of_nonneg (by norm_num : (0:ℚ) ≤ 1/1000)]
  · rw [htot, sub_zero, tol, abs_of_nonneg (by norm_num : (0:ℚ) ≤ 1/1000)]
    norm_num

/-- C3 (amended): on the committed path a supplied subset is accepted
exactly when the selection is non-empty and — for a positive target qty —
its total is strictly within 0.001 of qty; when the target qty is zero or
negative the modal waives the match and the component accepts any non-empty
selection whose total is within (at most) 0.001 of qty. -/
theorem C3_subset_acceptance (txs : List LotTransactionItem) (sel : Finset ℕ) (qty : ℚ) :
    committedSubsetAccepted txs sel qty = true ↔
      (0 < sel.card ∧
        (if 0 < qty then |selectedTotalQty txs sel - qty| < tol
         else |selectedTotalQty txs sel - qty| ≤ tol)) := by
  rcases le_or_lt qty 0 with h | h
  · have hn : ¬ (0:ℚ) < qty := not_lt.mpr h
    simp only [committedSubsetAccepted, canConfirm, isQtyMatched, onTransactionsSelectedProceeds,
      if_pos h, if_neg hn, Bool.and_eq_true, Bool.not_eq_true', decide_eq_true_eq,
      decide_eq_false_iff_not, not_lt]
    constructor
    · rintro ⟨⟨hc, -⟩, hle⟩
      exact ⟨hc, hle⟩
    · rintro ⟨hc, hle⟩
      exact ⟨⟨hc, hc⟩, hle⟩
  · have hn : ¬ qty ≤ 0 := not_le.mpr h
    simp only [committedSubsetAccepted, canConfirm, isQtyMatched, onTransactionsSelectedProceeds,
      if_neg hn, if_pos h, Bool.and_eq_true, Bool.not_eq_true', decide_eq_true_eq,
      decide_eq_false_iff_not, not_lt]
    constructor
    · rintro ⟨⟨hc, hm⟩, -⟩
      exact ⟨hc, hm⟩
    · rintro ⟨hc, hm⟩
      exact ⟨⟨hc, hm⟩, le_of_lt hm⟩

/-- C10 (confirmed): the modal's Confirm button is enabled for any
non-empty selection when the target quantity is zero or negative, and
otherwise exactly when the selection is non-empty and its total is strictly
within 0.001 of the target. -/
theorem C10_confirm_enablement (txs : List LotTransactionItem) (sel : Finset ℕ) (target : ℚ) :
    canConfirm txs sel target = true ↔
      (if target ≤ 0 then 0 < sel.card
       else 0 < sel.card ∧ |selectedTotalQty txs sel - target| < tol) := by
  rcases le_or_lt target 0 with h | h
  · simp [canConfirm, isQtyMatched, h]
  · have hn : ¬ target ≤ 0 := not_le.mpr h
    simp [canConfirm, isQtyMatched, hn]

theorem sum_filter_pendingOutbound (l : List AuditRow) (i lo ln b : String) :
    ((l.filter (pendingOutbound i lo ln b)).map (fun r => r.qtyIssued.getD 0)).sum =
      (l.map (fun r =>
        if (r.processed = 'N' ∨ r.processed = 'P') ∧ r.transactionType ∈ outboundTypes ∧
            r.itemKey = i ∧ r.locationKey = lo ∧ r.lotNo = ln ∧ r.binNo = b
        then r.qtyIssued.getD 0 else 0)).sum := by
  induction l with
  | nil => simp
  | cons a t ih =>
    by_cases h : (a.processed = 'N' ∨ a.processed = 'P') ∧ a.transactionType ∈ outboundTypes ∧
        a.itemKey = i ∧ a.locationKey = lo ∧ a.lotNo = ln ∧ a.binNo = b
    · simp [List.filter_cons, pendingOutbound, h, ih]
    · simp [List.filter_cons, pendingOutbound, h, ih]

/-- C4 (confirmed): the availability view returns
available = on_hand - committed_sales, and its pending_commit equals the
specification's sum of issued quantities over the combined audit and
QC-audit rows with processed in N or P and an outbound transaction type,
restricted to the same key. -/
theorem C4_availability (lot : LotMasterRow) (lotTx qcTx : List AuditRow) :
    (searchAvailability lot lotTx qcTx).available =
      (searchAvailability lot lotTx qcTx).on_hand -
        (searchAvailability lot lotTx qcTx).committed_sales ∧
    (searchAvailability lot lotTx qcTx).pending_commit =
      pending_commit_spec (lotTx ++ qcTx) lot.itemKey lot.locationKey lot.lotNo lot.binNo := by
  refine ⟨rfl, ?_⟩
  simp only [searchAvailability, commitmentQuery, pending_commit_spec, List.map_append,
    List.sum_append]
  rw [sum_filter_pendingOutbound, sum_filter_pendingOutbound]

/-- C5 (confirmed): both transfer paths append exactly the two paired audit
rows — type 9 at the source bin with the issue document number and type 8 at
the destination bin with the receipt document number, the same BT document
number on both, equal quantity, processed N — and leave every pre-existing
audit row untouched; the document number is BT-<n> for the post-increment
counter value. -/
theorem C5_paired_audit_rows (s : DBState) (src : LotMasterRow)
    (destBin userId recDate issueDate : String) (qty : ℚ) :
    (executeTransfer s src destBin userId recDate issueDate qty).2 =
        "BT-" ++ toString (s.seqNumBT + 1) ∧
    pairedAuditRows s.lotTransaction
      (executeTransfer s src destBin userId recDate issueDate qty).1.lotTransaction
      (executeTransfer s src destBin userId recDate issueDate qty).2 src.binNo destBin qty ∧
    (executeCommittedPath s src destBin userId recDate issueDate qty).2 =
        "BT-" ++ toString (s.seqNumBT + 1) ∧
    pairedAuditRows s.lotTransaction
      (executeCommittedPath s src destBin userId recDate issueDate qty).1.lotTransaction
      (executeCommittedPath s src destBin userId recDate issueDate qty).2 src.binNo destBin qty := by
  refine ⟨rfl, ?_, rfl, ?_⟩ <;>
    exact ⟨_, _, rfl, rfl, rfl, rfl, rfl, rfl, rfl, rfl, rfl, rfl, rfl⟩

theorem findLot_updateCommitSales_same (rows : List LotMasterRow) (i lo ln b : String) (d : ℚ) :
    findLot (updateCommitSales rows i lo ln b d) i lo ln b =
      (findLot rows i lo ln b).map
        (fun r => { r with qtyCommitSales := r.qtyCommitSales + d }) := by
  induction rows with
  | nil => rfl
  | cons a t ih =>
    by_cases h : lotKeyMatch i lo ln b a = true
    · have h2 : lotKeyMatch i lo ln b { a with qtyCommitSales := a.qtyCommitSales + d } = true := h
      simp only [updateCommitSales, List.map_cons, if_pos h, findLot] at ih ⊢
      rw [List.find?_cons_of_pos _ h2, List.find?_cons_of_pos _ h]
      rfl
    · have h2 : ¬ lotKeyMatch i lo ln b a = true := h
      simp only [updateCommitSales, List.map_cons, if_neg h, findLot] at ih ⊢
      rw [List.find?_cons_of_neg _ h2, List.find?_cons_of_neg _ h2]
      exact ih

theorem findLot_updateCommitSales_other (rows : List LotMasterRow)
    (i lo ln b i2 lo2 ln2 b2 : String) (d : ℚ)
    (hne : (i2, lo2, ln2, b2) ≠ (i, lo, ln, b)) :
    findLot (updateCommitSales rows i lo ln b d) i2 lo2 ln2 b2 =
      findLot rows i2 lo2 ln2 b2 := by
  induction rows with
  | nil => rfl
  | cons a t ih =>
    by_cases h : lotKeyMatch i lo ln b a = true
    · by_cases h2 : lotKeyMatch i2 lo2 ln2 b2 a = true
      · exfalso
        apply hne
        obtain ⟨e1, e2, e3, e4⟩ := of_decide_eq_true h
        obtain ⟨f1, f2, f3, f4⟩ := of_decide_eq_true h2
        simp only [Prod.mk.injEq]
        exact ⟨f1.symm.trans e1, f2.symm.trans e2, f3.symm.trans e3, f4.symm.trans e4⟩
      · have h2b : ¬ lotKeyMatch i2 lo2 ln2 b2
            { a with qtyCommitSales := a.qtyCommitSales + d } = true := h2
        simp only [updateCommitSales, List.map_cons, if_pos h, findLot] at ih ⊢
        rw [List.find?_cons_of_neg _ h2b, List.find?_cons_of_neg _ h2]
        exact ih
    · simp only [updateCommitSales, List.map_cons, if_neg h, findLot] at ih ⊢
      by_cases h2 : lotKeyMatch i2 lo2 ln2 b2 a = true
      · rw [List.find?_cons_of_pos _ h2, List.find?_cons_of_pos _ h2]
      · rw [List.find?_cons_of_neg _ h2, List.find?_cons_of_neg _ h2]
        exact ih

theorem findLot_updateCommitSales_onHand (rows : List LotMasterRow)
    (i lo ln b i2 lo2 ln2 b2 : String) (d : ℚ) :
    (findLot (updateCommitSales rows i lo ln b d) i2 lo2 ln2 b2).map LotMasterRow.qtyOnHand =
      (findLot rows i2 lo2 ln2 b2).map LotMasterRow.qtyOnHand := by
  by_cases he : (i2, lo2, ln2, b2) = (i, lo, ln, b)
  · simp only [Prod.mk.injEq] at he
    obtain ⟨e1, e2, e3, e4⟩ := he
    subst e1; subst e2; subst e3; subst e4
    rw [findLot_updateCommitSales_same]
    cases findLot rows i2 lo2 ln2 b2 <;> rfl
  · rw [findLot_updateCommitSales_other rows i lo ln b i2 lo2 ln2 b2 d he]

/-- C6 (confirmed): neither transfer path changes the on_hand of any lot
row; for every key other than the source key the whole row is untouched
(including the destination's); and the source row changes only in
committed_sales — increased by qty on the free path, decreased by qty on
the committed path. -/
theorem C6_lot_row_frame (s : DBState) (src : LotMasterRow)
    (destBin userId recDate issueDate : String) (qty : ℚ) :
    (∀ i lo ln b : String,
      (findLot (executeTransfer s src destBin userId recDate issueDate qty).1.lotMaster
          i lo ln b).map LotMasterRow.qtyOnHand =
        (findLot s.lotMaster i lo ln b).map LotMasterRow.qtyOnHand ∧
      (findLot (executeCommittedPath s src destBin userId recDate issueDate qty).1.lotMaster
          i lo ln b).map LotMasterRow.qtyOnHand =
        (findLot s.lotMaster i lo ln b).map LotMasterRow.qtyOnHand) ∧
    findLot (executeTransfer s src destBin userId recDate issueDate qty).1.lotMaster
        src.itemKey src.locationKey src.lotNo src.binNo =
      (findLot s.lotMaster src.itemKey src.locationKey src.lotNo src.binNo).map
        (fun r => { r with qtyCommitSales := r.qtyCommitSales + qty }) ∧
    findLot (executeCommittedPath s src destBin userId recDate issueDate qty).1.lotMaster
        src.itemKey src.locationKey src.lotNo src.binNo =
      (findLot s.lotMaster src.itemKey src.locationKey src.lotNo src.binNo).map
        (fun r => { r with qtyCommitSales := r.qtyCommitSales - qty }) ∧
    (∀ i lo ln b : String,
      (i, lo, ln, b) ≠ (src.itemKey, src.locationKey, src.lotNo, src.binNo) →
      findLot (executeTransfer s src destBin userId recDate issueDate qty).1.lotMaster
          i lo ln b = findLot s.lotMaster i lo ln b ∧
      findLot (executeCommittedPath s src destBin userId recDate issueDate qty).1.lotMaster
          i lo ln b = findLot s.lotMaster i lo ln b) := by
  refine ⟨fun i lo ln b => ⟨?_, ?_⟩, ?_, ?_, fun i lo ln b hne => ⟨?_, ?_⟩⟩
  · exact findLot_updateCommitSales_onHand s.lotMaster _ _ _ _ i lo ln b qty
  · exact findLot_updateCommitSales_onHand s.lotMaster _ _ _ _ i lo ln b (-qty)
  · exact findLot_updateCommitSales_same s.lotMaster _ _ _ _ qty
  · have h := findLot_updateCommitSales_same s.lotMaster src.itemKey src.locationKey
      src.lotNo src.binNo (-qty)
    simpa [sub_eq_add_neg] using h
  · exact findLot_updateCommitSales_other s.lotMaster _ _ _ _ i lo ln b qty hne
  · exact findLot_updateCommitSales_other s.lotMaster _ _ _ _ i lo ln b (-qty) hne

/-- The source-bin LotMaster row of the documented transfer scenario (lot
2600107-1, item INBC1403, location TFC1, bin K0802-4B, on-hand 975,
committed 50). -/
def srcRowS1 : LotMasterRow :=
  { lotNo := "2600107-1"
    itemKey := "INBC1403"
    locationKey := "TFC1"
    binNo := "K0802-4B"
    vendorKey := "NZSUS"
    vendorLotNo := "07-05-25"
    dateReceived := "2025-08-07 08:36:02"
    dateExpiry := "2027-05-07 00:00:00"
    lotStatus := "B"
    qtyOnHand := 975
    qtyCommitSales := 50
    qtyReserved := 0 }

/-- The destination-bin LotMaster row of the same scenario (bin WHKON1,
on-hand 3350, committed 0), carrying a different lot status. -/
def destRowS1 : LotMasterRow :=
  { lotNo := "2600107-1"
    itemKey := "INBC1403"
    locationKey := "TFC1"
    binNo := "WHKON1"
    vendorKey := "NZSUS"
    vendorLotNo := "07-05-25"
    dateReceived := "2025-08-07 08:36:02"
    dateExpiry := "2027-05-07 00:00:00"
    lotStatus := "C"
    qtyOnHand := 3350
    qtyCommitSales := 0
    qtyReserved := 0 }

/-- The documented pre-transfer state. -/
def stateS1 : DBState :=
  { lotMaster := [srcRowS1, destRowS1]
    lotTransaction := []
    seqNumBT := 26112173 }

/-- C6 witness: at the documented scenario, the destination row (a key
different from the source key) is untouched by a free-path transfer of
500. -/
theorem C6_lot_row_frame_witness :
    ("INBC1403", "TFC1", "2600107-1", "WHKON1") ≠
        ("INBC1403", "TFC1", "2600107-1", "K0802-4B") ∧
    findLot (executeTransfer stateS1 srcRowS1 "WHKON1" "DECHAWAT"
        "2026-02-16 00:00:00" "2026-02-16 00:00:00" 500).1.lotMaster
        "INBC1403" "TFC1" "2600107-1" "WHKON1" =
      findLot stateS1.lotMaster "INBC1403" "TFC1" "2600107-1" "WHKON1" :=
  ⟨by decide,
   ((C6_lot_row_frame stateS1 srcRowS1 "WHKON1" "DECHAWAT"
        "2026-02-16 00:00:00" "2026-02-16 00:00:00" 500).2.2.2
      "INBC1403" "TFC1" "2600107-1" "WHKON1" (by decide)).1⟩

/-- The selected-lot details the putaway component holds in the documented
scenario (source bin K0802-4B, lot status B). -/
def lotDetailsS1 : LotDetails :=
  { lotNumber := "2600107-1"
    binNumber := "K0802-4B"
    itemKey := "INBC1403"
    location := "TFC1"
    uom := "KG"
    qtyCommitSales := 50
    qtyOnHand := 975
    qtyAvail := 925
    expDate := "2027-05-07"
    lotStatus := "B" }

/-- C7, counterexample.  In the documented state a destination lot row
exists at WHKON1 with status C while the source status is B; the claim then
requires destination_lot_status = C, but the committed-path
transactionDetails always carries the source status B. -/
theorem C7_counterexample :
    findLot stateS1.lotMaster "INBC1403" "TFC1" "2600107-1" "WHKON1" = some destRowS1 ∧
    destRowS1.lotStatus = "C" ∧
    lotDetailsS1.lotStatus = "B" ∧
    (committedTransactionDetails lotDetailsS1 "WHKON1" 50
        (backendTransferResult "BT-26112174" "ok" "2026-02-16T00:00:00Z" "B" (some destRowS1))
        false).destination_lot_status = "B" ∧
    ("B" : String) ≠ "C" := by
  refine ⟨rfl, rfl, rfl, rfl, by decide⟩

/-- C7 (amended): on the free path the displayed result follows the
backend's resolution — destination_lot_status is the existing destination
row's status when such a row exists, else the source status; on the
committed path the component sets destination_lot_status to the source
status unconditionally, whatever the destination row holds. -/
theorem C7_destination_status (lot : LotDetails) (toBin : String) (q : ℚ)
    (doc msg ts nowIso : String) (destRow : Option LotMasterRow) (pr : Bool) :
    (onSubmitTransactionDetails lot toBin q
        (backendTransferResult doc msg ts lot.lotStatus destRow) nowIso pr).destination_lot_status =
      (match destRow with
       | some r => r.lotStatus
       | none => lot.lotStatus) ∧
    (committedTransactionDetails lot toBin q
        (backendTransferResult doc msg ts lot.lotStatus destRow) pr).destination_lot_status =
      lot.lotStatus :=
  ⟨rfl, rfl⟩

theorem zeroPad3_length (n : ℕ) : (zeroPad3 n).length = 3 := rfl

theorem pad2_length (n : ℕ) : (pad2 n).length = 2 := rfl

/-- Lot details whose lot status is empty (the component fills lotStatus
from lot_status || two-quote fallback, so it can be the empty string). -/
def lotNoStatus : LotDetails := { lotDetailsS1 with lotStatus := "" }

/-- Transaction details matching the empty-status lot. -/
def tdNoStatus : TransactionDetails :=
  { document_no := "BT-26112174"
    lot_no := "2600107-1"
    transfer_qty := 500
    uom := "KG"
    bin_from := "K0802-4B"
    bin_to := "WHKON1"
    timestamp := ""
    should_print := false
    source_lot_status := ""
    destination_lot_status := "" }

/-- C8, counterexample.  With an empty source lot status and an absent
(equal, empty) destination status the claim requires the receipt to show
the single source status — the empty string — but the receipt shows
"N/A". -/
theorem C8_counterexample :
    lotNoStatus.lotStatus = "" ∧
    tdNoStatus.destination_lot_status = lotNoStatus.lotStatus ∧
    (printTransferReceipt tdNoStatus lotNoStatus "" "" 16 2 2026).lotStatusDisplay = "N/A" ∧
    ("N/A" : String) ≠ "" := by
  refine ⟨rfl, rfl, rfl, by decide⟩

/-- C8 (amended): the receipt record is a function of the transfer outputs,
the lot data and the print date; its transfer quantity renders the quantity
rounded to three decimals with exactly three fraction digits; its date is
DD-MM-YY; its lot status is the single source status when the destination
status is empty or equal to it — except that an empty source status renders
as "N/A" — and "<source> - <destination>" when the two differ. -/
theorem C8_receipt_fields (td : TransactionDetails) (lot : LotDetails)
    (remarks referenced : String) (day month year : ℕ) :
    (∃ n : ℤ, (n : ℚ) = 1000 * roundToDecimalPlaces td.transfer_qty 3 ∧
      (printTransferReceipt td lot remarks referenced day month year).qtyTransferStr =
        toString (n / 1000) ++ "." ++ zeroPad3 (n % 1000).toNat ∧
      (zeroPad3 (n % 1000).toNat).length = 3 ∧ (n % 1000).toNat < 1000) ∧
    ((printTransferReceipt td lot remarks referenced day month year).dateStr =
        pad2 day ++ "-" ++ pad2 month ++ "-" ++ pad2 (year % 100) ∧
      (printTransferReceipt td lot remarks referenced day month year).dateStr.length = 8) ∧
    (printTransferReceipt td lot remarks referenced day month year).lotStatusDisplay =
      (if td.destination_lot_status = "" ∨ td.destination_lot_status = lot.lotStatus then
        (if lot.lotStatus = "" then "N/A" else lot.lotStatus)
       else lot.lotStatus ++ " - " ++ td.destination_lot_status) := by
  refine ⟨⟨Int.floor (td.transfer_qty * 1000 + 1/2), ?_, rfl, rfl, ?_⟩, ⟨rfl, ?_⟩, ?_⟩
  · simp only [roundToDecimalPlaces]
    norm_num
    field_simp
  · have h1 : 0 ≤ Int.floor (td.transfer_qty * 1000 + 1/2) % 1000 :=
      Int.emod_nonneg _ (by norm_num)
    have h2 : Int.floor (td.transfer_qty * 1000 + 1/2) % 1000 < 1000 :=
      Int.emod_lt_of_pos _ (by norm_num)
    omega
  · simp only [printTransferReceipt, formatDateDDMMYY, String.length_append, pad2_length]
    decide
  · simp only [printTransferReceipt, formatLotStatus]
    rcases eq_or_ne td.destination_lot_status "" with h1 | h1
    · simp [h1]
    · rcases eq_or_ne td.destination_lot_status lot.lotStatus with h2 | h2
      · simp [h1, h2]
      · simp [h1, h2, Option.getD]

theorem allocRun_mem_lt (k : ℕ) : ∀ c x, x ∈ allocRun c k → c < x := by
  induction k with
  | zero =>
    intro c x hx
    simp [allocRun] at hx
  | succ k ih =>
    intro c x hx
    simp only [allocRun, nextDocNumber, List.mem_cons] at hx
    rcases hx with h | h
    · omega
    · have := ih (c + 1) x h
      omega

theorem allocRun_pairwise (c k : ℕ) : List.Pairwise (· < ·) (allocRun c k) := by
  induction k generalizing c with
  | zero => simp [allocRun]
  | succ k ih =>
    simp only [allocRun]
    exact List.Pairwise.cons (fun x hx => allocRun_mem_lt k (nextDocNumber c).1 x hx) (ih _)

/-- C9 (confirmed): a BT allocation returns the post-increment counter value
n formatted BT-<n>; any run of successive allocations (allocations are
serialized by the SeqNum row lock) yields strictly increasing, pairwise
distinct values; and each transfer path draws exactly one such allocation
as its document number, advancing the stored counter. -/
theorem C9_document_numbers (c k : ℕ) (s : DBState) (src : LotMasterRow)
    (destBin userId recDate issueDate : String) (qty : ℚ) :
    (nextDocNumber c).1 = c + 1 ∧
    (nextDocNumber c).2 = "BT-" ++ toString ((nextDocNumber c).1) ∧
    List.Pairwise (· < ·) (allocRun c k) ∧
    (allocRun c k).Nodup ∧
    (executeTransfer s src destBin userId recDate issueDate qty).1.seqNumBT =
      (nextDocNumber s.seqNumBT).1 ∧
    (executeTransfer s src destBin userId recDate issueDate qty).2 =
      (nextDocNumber s.seqNumBT).2 ∧
    (executeCommittedPath s src destBin userId recDate issueDate qty).1.seqNumBT =
      (nextDocNumber s.seqNumBT).1 ∧
    (executeCommittedPath s src destBin userId recDate issueDate qty).2 =
      (nextDocNumber s.seqNumBT).2 := by
  refine ⟨rfl, rfl, allocRun_pairwise c k, ?_, rfl, rfl, rfl, rfl⟩
  exact (allocRun_pairwise c k).imp ne_of_lt

end Putaway
